import Mathlib

/-!
Verification of the query-complexity orchestrator of the ModelZoo backend
(`backend/app/orchestrator.py` together with the static registries of
`backend/app/config.py`).

The Python code is shallowly embedded: queries are Lean `String`s, the
analysis dictionary becomes the structure `ComplexityAnalysis` (the keys
`selection_reason` and `was_auto_selected`, absent until the selector runs,
become `Option` fields that start out `none`), and the handful of fixed
regular expressions used for structure scoring are compiled by hand into
small total matchers over `List Char`.  Character classes (`\w`, `\s`,
`\d`) and `str.lower`/`str.strip` are modelled with their ASCII semantics,
which is what every input relevant to the specification exercises.
-/

namespace ModelZoo

/-- ASCII model of Python's whitespace class `\s` (also used by `str.strip`). -/
def pySpace (c : Char) : Bool :=
  c == ' ' || c == '\t' || c == '\n' || c == '\r' || c == '\x0b' || c == '\x0c'

/-- ASCII model of Python's word-character class `\w`. -/
def isWordChar (c : Char) : Bool := c.isAlphanum || c == '_'

/-- Model of `str.lower` (ASCII). -/
def lowerCL (cs : List Char) : List Char := cs.map Char.toLower

/-- Model of `str.strip` (ASCII whitespace). -/
def trimCL (cs : List Char) : List Char :=
  ((cs.dropWhile pySpace).reverse.dropWhile pySpace).reverse

/-- Does `needle` occur at the very start of `hay`? -/
def leadMatch : List Char → List Char → Bool
  | [], _ => true
  | _ :: _, [] => false
  | a :: as, b :: bs => a == b && leadMatch as bs

/-- Python's substring containment `needle in hay`. -/
def containsSub (needle : List Char) : List Char → Bool
  | [] => leadMatch needle []
  | b :: bs => leadMatch needle (b :: bs) || containsSub needle bs

/-- One atom of the fixed regular expressions used for structure scoring:
a literal character sequence, or a one-or-more repetition of `\w`, `\s` or
`\d`.  In every pattern of the source each repetition is followed by a
token starting with a character of a disjoint class, so greedy matching is
exact. -/
inductive RAtom
  | lit : List Char → RAtom
  | plusW : RAtom
  | plusS : RAtom
  | plusD : RAtom

/-- Match a sequence of atoms at the start of `cs` (greedily). -/
def matchAtoms : List RAtom → List Char → Bool
  | [], _ => true
  | RAtom.lit ls :: rest, cs =>
      leadMatch ls cs && matchAtoms rest (cs.drop ls.length)
  | RAtom.plusW :: rest, cs =>
      !(cs.takeWhile isWordChar).isEmpty && matchAtoms rest (cs.dropWhile isWordChar)
  | RAtom.plusS :: rest, cs =>
      !(cs.takeWhile pySpace).isEmpty && matchAtoms rest (cs.dropWhile pySpace)
  | RAtom.plusD :: rest, cs =>
      !(cs.takeWhile Char.isDigit).isEmpty && matchAtoms rest (cs.dropWhile Char.isDigit)

/-- Python's `re.search`: match the atom sequence at some position. -/
def searchAtoms (ats : List RAtom) : List Char → Bool
  | [] => matchAtoms ats []
  | c :: cs => matchAtoms ats (c :: cs) || searchAtoms ats cs

/-- After a word, a word boundary `\b` needs the end of input or a
non-word character. -/
def wordEndOk : List Char → Bool
  | [] => true
  | c :: _ => !isWordChar c

/-- Match `\b w \b` exactly at the start of `cs`, given that the boundary
before `cs` is already established. -/
def matchWholeWord (w : List Char) (cs : List Char) : Bool :=
  leadMatch w cs && wordEndOk (cs.drop w.length)

/-- Search `\b w \b` anywhere; `prevOk` records whether a word boundary
precedes the current position. -/
def searchWordFrom (w : List Char) (prevOk : Bool) : List Char → Bool
  | [] => prevOk && matchWholeWord w []
  | c :: cs =>
      (prevOk && matchWholeWord w (c :: cs)) || searchWordFrom w (!isWordChar c) cs

/-- `re.search` for the patterns `\bconst\b` and `\blet\b`. -/
def searchWordBounded (w : List Char) (cs : List Char) : Bool :=
  searchWordFrom w true cs

/-! ## Static registries (`backend/app/config.py`) -/

/-- One entry of `MODEL_CONFIGS`.  The per-1k-token cost is a rational
(0.03 and 0.002 in the source). -/
structure ModelConfig where
  deployment_name : String
  display_name : String
  description : String
  max_tokens : Nat
  capabilities : List String
  complexity_threshold : Nat
  cost_per_1k_tokens : ℚ
deriving Repr, Inhabited

/-- The two-entry model registry, as an association list in the
insertion order of the Python dict. -/
def MODEL_CONFIGS : List (String × ModelConfig) :=
  [ ("gpt-4",
     { deployment_name := "gpt-4"
       display_name := "GPT-4"
       description := "Most capable model for complex reasoning and analysis"
       max_tokens := 8192
       capabilities := ["complex_reasoning", "code_generation", "analysis", "creative_writing"]
       complexity_threshold := 4
       cost_per_1k_tokens := 3 / 100 }),
    ("gpt-35-turbo",
     { deployment_name := "gpt-35-turbo"
       display_name := "GPT-3.5 Turbo"
       description := "Fast and efficient for straightforward tasks"
       max_tokens := 4096
       capabilities := ["general_chat", "simple_code", "summarization", "translation"]
       complexity_threshold := 2
       cost_per_1k_tokens := 2 / 1000 }) ]

/-- The keyword lexicon `COMPLEXITY_KEYWORDS`. -/
structure KeywordLexicon where
  high : List String
  medium : List String
  low : List String

def COMPLEXITY_KEYWORDS : KeywordLexicon :=
  { high := ["analyze", "explain in detail", "compare", "contrast", "evaluate",
             "synthesize", "create a plan", "design", "architect", "optimize",
             "debug complex", "refactor", "implement algorithm"]
    medium := ["summarize", "describe", "list", "what is", "how does", "example",
               "convert", "translate", "format", "write code"]
    low := ["hi", "hello", "thanks", "yes", "no", "ok", "bye"] }

/-! ## The analyzer (`QueryOrchestrator.analyze_query`) -/

/-- The analysis record built by `analyze_query` and enriched by
`select_model`.  `selection_reason` and `was_auto_selected` are dictionary
keys that only exist after selection, hence `Option`. -/
structure ComplexityAnalysis where
  length_score : Nat
  keyword_score : Nat
  structure_score : Nat
  total_score : Nat
  factors : List String
  recommended_model : Option String
  selection_reason : Option String
  was_auto_selected : Option Bool
deriving Repr, DecidableEq

/-- Step 1 of `analyze_query`: length scoring on the character count. -/
def lengthAnalysis (L : Nat) : Nat × List String :=
  if L > 1000 then (3, ["Very long query (>1000 chars)"])
  else if L > 500 then (2, ["Long query (>500 chars)"])
  else if L > 200 then (1, ["Medium length query"])
  else (0, [])

/-- Step 2 of `analyze_query`: keyword scoring on the lowercased query. -/
def keywordAnalysis (qLower : List Char) : Nat × List String :=
  let highMatches := COMPLEXITY_KEYWORDS.high.filter fun kw => containsSub kw.data qLower
  let mediumMatches := COMPLEXITY_KEYWORDS.medium.filter fun kw => containsSub kw.data qLower
  let lowMatches := COMPLEXITY_KEYWORDS.low.filter fun kw => trimCL qLower == kw.data
  let s1 : Nat := if highMatches.isEmpty then 0 else 2
  let f1 : List String :=
    if highMatches.isEmpty then []
    else ["High complexity keywords: " ++ String.intercalate ", " (highMatches.take 3)]
  let s2 : Nat := if mediumMatches.isEmpty then s1 else s1 + 1
  let f2 : List String :=
    if mediumMatches.isEmpty then f1 else f1 ++ ["Medium complexity keywords detected"]
  let s3 : Nat := if lowMatches.isEmpty then s2 else 0
  let f3 : List String :=
    if lowMatches.isEmpty then f2 else f2 ++ ["Simple greeting/response"]
  (s3, f3)

/-- The nine code-indicating patterns, searched in the original-case query. -/
def hasCodePattern (q : List Char) : Bool :=
  containsSub ("```".data) q ||
  searchAtoms [RAtom.lit ("def".data), RAtom.plusS, RAtom.plusW] q ||
  searchAtoms [RAtom.lit ("function".data), RAtom.plusS, RAtom.plusW] q ||
  searchAtoms [RAtom.lit ("class".data), RAtom.plusS, RAtom.plusW] q ||
  searchAtoms [RAtom.lit ("import".data), RAtom.plusS] q ||
  searchAtoms [RAtom.lit ("from".data), RAtom.plusS, RAtom.plusW,
               RAtom.plusS, RAtom.lit ("import".data)] q ||
  containsSub ("=>".data) q ||
  searchWordBounded ("const".data) q ||
  searchWordBounded ("let".data) q

/-- Step 3 of `analyze_query`: structure scoring (code patterns on the
original query, question marks counted in the lowercased query, numbered
lists on the original query). -/
def structureAnalysis (q qLower : List Char) : Nat × List String :=
  let codeHit := hasCodePattern q
  let s1 : Nat := if codeHit then 2 else 0
  let f1 : List String := if codeHit then ["Contains code or technical content"] else []
  let manyQuestions := decide (2 < qLower.count '?')
  let s2 : Nat := if manyQuestions then s1 + 1 else s1
  let f2 : List String := if manyQuestions then f1 ++ ["Multiple questions detected"] else f1
  let listHit := searchAtoms [RAtom.plusD, RAtom.lit (".".data), RAtom.plusS] q
  let s3 : Nat := if listHit then s2 + 1 else s2
  let f3 : List String := if listHit then f2 ++ ["Structured list/steps detected"] else f2
  (s3, f3)

/-- `QueryOrchestrator.analyze_query`. -/
def analyze_query (query : String) : ComplexityAnalysis :=
  let lr := lengthAnalysis query.length
  let qLower := lowerCL query.data
  let kr := keywordAnalysis qLower
  let sr := structureAnalysis query.data qLower
  { length_score := lr.1
    keyword_score := kr.1
    structure_score := sr.1
    total_score := lr.1 + kr.1 + sr.1
    factors := lr.2 ++ kr.2 ++ sr.2
    recommended_model := none
    selection_reason := none
    was_auto_selected := none }

/-! ## The selector (`QueryOrchestrator.select_model`) -/

/-- The automatic branch of `select_model` (no valid preferred model). -/
def select_model_auto (query : String) : String × ComplexityAnalysis :=
  let analysis := analyze_query query
  let ts := analysis.total_score
  let mr : String × String :=
    if ts ≥ 4 then
      ("gpt-4", "High complexity query - using GPT-4 for best results")
    else if ts ≥ 2 then
      ("gpt-35-turbo", "Medium complexity - GPT-3.5 Turbo is efficient")
    else
      ("gpt-35-turbo", "Simple query - using fast GPT-3.5 Turbo")
  (mr.1, { analysis with
            recommended_model := some mr.1
            selection_reason := some mr.2
            was_auto_selected := some true })

/-- The guard `preferred_model and preferred_model in self.models`
(Python truthiness: `None` and the empty string are falsy). -/
def validPreferred : Option String → Bool
  | none => false
  | some pm => !(pm == "") && MODEL_CONFIGS.any fun p => p.1 == pm

/-- `QueryOrchestrator.select_model`. -/
def select_model (query : String) (preferred_model : Option String) :
    String × ComplexityAnalysis :=
  match preferred_model with
  | some pm =>
      if !(pm == "") && MODEL_CONFIGS.any (fun p => p.1 == pm) then
        let analysis := analyze_query query
        (pm, { analysis with
                recommended_model := some pm
                selection_reason := some "User specified model"
                was_auto_selected := some false })
      else
        select_model_auto query
  | none => select_model_auto query

/-- `QueryOrchestrator.get_model_config`: unknown ids fall back to the
low-tier entry. -/
def get_model_config (model_id : String) : ModelConfig :=
  match MODEL_CONFIGS.lookup model_id with
  | some c => c
  | none => (MODEL_CONFIGS.lookup "gpt-35-turbo").getD default

/-- `QueryOrchestrator.estimate_tokens`. -/
def estimate_tokens (text : String) : Nat := text.length / 4

/-! ## Helper lemmas -/

lemma select_model_invalid (q : String) (pm : Option String)
    (h : validPreferred pm = false) : select_model q pm = select_model_auto q := by
  cases pm with
  | none => rfl
  | some s =>
      have h' : (!(s == "") && MODEL_CONFIGS.any fun p => p.1 == s) = false := h
      simp [select_model, h']

lemma select_model_valid (q : String) (s : String)
    (h : (!(s == "") && MODEL_CONFIGS.any fun p => p.1 == s) = true) :
    select_model q (some s) =
      (s, { analyze_query q with
             recommended_model := some s
             selection_reason := some "User specified model"
             was_auto_selected := some false }) := by
  simp [select_model, h]

lemma select_model_auto_high (q : String) (h : 4 ≤ (analyze_query q).total_score) :
    select_model_auto q =
      ("gpt-4",
       { analyze_query q with
          recommended_model := some "gpt-4"
          selection_reason := some "High complexity query - using GPT-4 for best results"
          was_auto_selected := some true }) := by
  simp only [select_model_auto, ge_iff_le, if_pos h]

lemma select_model_auto_mid (q : String) (h2 : 2 ≤ (analyze_query q).total_score)
    (h4 : ¬ 4 ≤ (analyze_query q).total_score) :
    select_model_auto q =
      ("gpt-35-turbo",
       { analyze_query q with
          recommended_model := some "gpt-35-turbo"
          selection_reason := some "Medium complexity - GPT-3.5 Turbo is efficient"
          was_auto_selected := some true }) := by
  simp only [select_model_auto, ge_iff_le, if_neg h4, if_pos h2]

lemma select_model_auto_low (q : String) (h2 : ¬ 2 ≤ (analyze_query q).total_score) :
    select_model_auto q =
      ("gpt-35-turbo",
       { analyze_query q with
          recommended_model := some "gpt-35-turbo"
          selection_reason := some "Simple query - using fast GPT-3.5 Turbo"
          was_auto_selected := some true }) := by
  have h4 : ¬ 4 ≤ (analyze_query q).total_score := by omega
  simp only [select_model_auto, ge_iff_le, if_neg h4, if_neg h2]

lemma select_model_auto_was_auto (q : String) :
    (select_model_auto q).2.was_auto_selected = some true := rfl

lemma select_model_auto_fst_mem (q : String) :
    (select_model_auto q).1 ∈ MODEL_CONFIGS.map Prod.fst := by
  by_cases h4 : 4 ≤ (analyze_query q).total_score
  · rw [select_model_auto_high q h4]
    exact (by decide : "gpt-4" ∈ List.map Prod.fst MODEL_CONFIGS)
  · by_cases h2 : 2 ≤ (analyze_query q).total_score
    · rw [select_model_auto_mid q h2 h4]
      exact (by decide : "gpt-35-turbo" ∈ List.map Prod.fst MODEL_CONFIGS)
    · rw [select_model_auto_low q h2]
      exact (by decide : "gpt-35-turbo" ∈ List.map Prod.fst MODEL_CONFIGS)

lemma keywordAnalysis_fst_le (ql : List Char) : (keywordAnalysis ql).1 ≤ 3 := by
  simp only [keywordAnalysis]
  repeat' split
  all_goals simp

lemma kw_factors_cases (ql : List Char) (s : String)
    (hs : s ∈ (keywordAnalysis ql).2) :
    s = "Medium complexity keywords detected" ∨ s = "Simple greeting/response" ∨
      ∃ t, s = "High complexity keywords: " ++ t := by
  simp only [keywordAnalysis] at hs
  repeat' split at hs
  all_goals simp only [List.mem_append, List.mem_singleton, List.not_mem_nil] at hs
  all_goals tauto

lemma struct_factors_cases (a b : List Char) (s : String)
    (hs : s ∈ (structureAnalysis a b).2) :
    s = "Contains code or technical content" ∨ s = "Multiple questions detected" ∨
      s = "Structured list/steps detected" := by
  simp only [structureAnalysis] at hs
  repeat' split at hs
  all_goals simp only [List.mem_append, List.mem_singleton, List.not_mem_nil] at hs
  all_goals tauto

lemma highFactor_ne (t u : String) (hu : u.data.head? ≠ some 'H') :
    "High complexity keywords: " ++ t ≠ u := by
  intro h
  subst h
  apply hu
  obtain ⟨l⟩ := t
  rfl

lemma lengthAnalysis_very_long (L : Nat) (h : 1000 < L) :
    lengthAnalysis L = (3, ["Very long query (>1000 chars)"]) := by
  unfold lengthAnalysis
  rw [if_pos h]

lemma lengthAnalysis_long (L : Nat) (h1 : 500 < L) (h2 : L ≤ 1000) :
    lengthAnalysis L = (2, ["Long query (>500 chars)"]) := by
  unfold lengthAnalysis
  rw [if_neg (by omega), if_pos h1]

lemma lengthAnalysis_medium (L : Nat) (h1 : 200 < L) (h2 : L ≤ 500) :
    lengthAnalysis L = (1, ["Medium length query"]) := by
  unfold lengthAnalysis
  rw [if_neg (by omega), if_neg (by omega), if_pos h1]

lemma lengthAnalysis_short (L : Nat) (h : L ≤ 200) :
    lengthAnalysis L = (0, []) := by
  unfold lengthAnalysis
  rw [if_neg (by omega), if_neg (by omega), if_neg (by omega)]

lemma analyze_query_length_score (q : String) :
    (analyze_query q).length_score = (lengthAnalysis q.length).1 := rfl

lemma analyze_query_keyword_score (q : String) :
    (analyze_query q).keyword_score = (keywordAnalysis (lowerCL q.data)).1 := rfl

lemma analyze_query_factors (q : String) :
    (analyze_query q).factors =
      (lengthAnalysis q.length).2 ++ (keywordAnalysis (lowerCL q.data)).2 ++
        (structureAnalysis q.data (lowerCL q.data)).2 := rfl

lemma length_factor_not_in_tail (q : String) (u : String)
    (hu : u.data.head? ≠ some 'H')
    (h1 : u ≠ "Medium complexity keywords detected")
    (h2 : u ≠ "Simple greeting/response")
    (h3 : u ≠ "Contains code or technical content")
    (h4 : u ≠ "Multiple questions detected")
    (h5 : u ≠ "Structured list/steps detected")
    (hmem : u ∈ (keywordAnalysis (lowerCL q.data)).2 ++
              (structureAnalysis q.data (lowerCL q.data)).2) : False := by
  rcases List.mem_append.mp hmem with hk | hst
  · rcases kw_factors_cases _ _ hk with h | h | ⟨t, ht⟩
    · exact h1 h
    · exact h2 h
    · exact highFactor_ne t u hu ht.symm
  · rcases struct_factors_cases _ _ _ hst with h | h | h
    · exact h3 h
    · exact h4 h
    · exact h5 h

/-! ## Theorems for the claims -/

/-- Claim C1: whenever automatic selection runs (no valid preferred model),
`select_model` routes purely on `total_score`: a score of at least 4 selects
"gpt-4" with the high-complexity reason; a score in [2,4) selects
"gpt-35-turbo" with the medium-complexity reason; a score below 2 selects
"gpt-35-turbo" with the simple-query reason; and `was_auto_selected` is
true.  Scores 2 and 3 thus yield the same model as 0 and 1, differing only
in the reason text. -/
theorem select_model_auto_routing (q : String) (pm : Option String)
    (hpm : validPreferred pm = false) :
    (4 ≤ (analyze_query q).total_score →
        (select_model q pm).1 = "gpt-4" ∧
        (select_model q pm).2.selection_reason =
          some "High complexity query - using GPT-4 for best results") ∧
    (2 ≤ (analyze_query q).total_score → (analyze_query q).total_score < 4 →
        (select_model q pm).1 = "gpt-35-turbo" ∧
        (select_model q pm).2.selection_reason =
          some "Medium complexity - GPT-3.5 Turbo is efficient") ∧
    ((analyze_query q).total_score < 2 →
        (select_model q pm).1 = "gpt-35-turbo" ∧
        (select_model q pm).2.selection_reason =
          some "Simple query - using fast GPT-3.5 Turbo") ∧
    (select_model q pm).2.was_auto_selected = some true := by
  have hr := select_model_invalid q pm hpm
  refine ⟨fun h4 => ?_, fun h2 h4 => ?_, fun h2 => ?_, ?_⟩
  · rw [hr, select_model_auto_high q h4]; exact ⟨rfl, rfl⟩
  · rw [hr, select_model_auto_mid q h2 (by omega)]; exact ⟨rfl, rfl⟩
  · rw [hr, select_model_auto_low q (by omega)]; exact ⟨rfl, rfl⟩
  · rw [hr]; exact select_model_auto_was_auto q

/-- Witness for C1, at the query "hi" (total score 0) with no preference. -/
theorem select_model_auto_routing_witness :
    validPreferred none = false ∧ (analyze_query "hi").total_score < 2 ∧
      (select_model "hi" none).1 = "gpt-35-turbo" ∧
      (select_model "hi" none).2.selection_reason =
        some "Simple query - using fast GPT-3.5 Turbo" := by
  have h := select_model_auto_routing "hi" none rfl
  have hts : (analyze_query "hi").total_score < 2 := by decide
  exact ⟨rfl, hts, h.2.2.1 hts⟩

/-- Claim C2: a preferred model that is a key of the registry is returned as
is, the analysis is still computed (all scores and factors agree with
`analyze_query` on the same query), the reason is "User specified model",
and `was_auto_selected` is false. -/
theorem select_model_user_preferred (q : String) (pm : String)
    (h : pm ∈ MODEL_CONFIGS.map Prod.fst) :
    (select_model q (some pm)).1 = pm ∧
    (select_model q (some pm)).2.recommended_model = some pm ∧
    (select_model q (some pm)).2.selection_reason = some "User specified model" ∧
    (select_model q (some pm)).2.was_auto_selected = some false ∧
    (select_model q (some pm)).2.length_score = (analyze_query q).length_score ∧
    (select_model q (some pm)).2.keyword_score = (analyze_query q).keyword_score ∧
    (select_model q (some pm)).2.structure_score = (analyze_query q).structure_score ∧
    (select_model q (some pm)).2.total_score = (analyze_query q).total_score ∧
    (select_model q (some pm)).2.factors = (analyze_query q).factors := by
  have hpm : pm = "gpt-4" ∨ pm = "gpt-35-turbo" := by
    have hkeys : List.map Prod.fst MODEL_CONFIGS = ["gpt-4", "gpt-35-turbo"] := rfl
    rw [hkeys] at h
    simpa using h
  rcases hpm with h' | h' <;> subst h' <;>
    exact ⟨rfl, rfl, rfl, rfl, rfl, rfl, rfl, rfl, rfl⟩

/-- Witness for C2, at the query "hello" with preferred model "gpt-4". -/
theorem select_model_user_preferred_witness :
    "gpt-4" ∈ MODEL_CONFIGS.map Prod.fst ∧
      (select_model "hello" (some "gpt-4")).1 = "gpt-4" ∧
      (select_model "hello" (some "gpt-4")).2.selection_reason =
        some "User specified model" ∧
      (select_model "hello" (some "gpt-4")).2.was_auto_selected = some false := by
  have h := select_model_user_preferred "hello" "gpt-4" (by decide)
  exact ⟨by decide, h.1, h.2.2.1, h.2.2.2.1⟩

/-- Claim C3 is refuted as stated: on the query "analyze and summarize" both
a high keyword ("analyze", +2) and a medium keyword ("summarize", +1) fire,
so `keyword_score` is 3, outside the claimed set {0, 1, 2}. -/
theorem keyword_score_not_in_012 :
    ¬ ((analyze_query "analyze and summarize").keyword_score = 0 ∨
       (analyze_query "analyze and summarize").keyword_score = 1 ∨
       (analyze_query "analyze and summarize").keyword_score = 2) := by
  decide

/-- Claim C3 (amended): for every query the `keyword_score` produced by
`analyze_query` lies in {0, 1, 2, 3}. -/
theorem keyword_score_mem_range (q : String) :
    (analyze_query q).keyword_score = 0 ∨ (analyze_query q).keyword_score = 1 ∨
      (analyze_query q).keyword_score = 2 ∨ (analyze_query q).keyword_score = 3 := by
  have h : (analyze_query q).keyword_score ≤ 3 := by
    rw [analyze_query_keyword_score]; exact keywordAnalysis_fst_le _
  omega

/-- Claim C4: a preferred model that is not a key of the registry is treated
exactly as if no preference were supplied; `select_model` is total, so no
error is possible. -/
theorem select_model_unknown_preferred (q : String) (pm : String)
    (h : pm ∉ MODEL_CONFIGS.map Prod.fst) :
    select_model q (some pm) = select_model q none := by
  have hany : (MODEL_CONFIGS.any fun p => p.1 == pm) = false := by
    rw [List.any_eq_false]
    intro p hp hbeq
    exact h (List.mem_map.mpr ⟨p, hp, eq_of_beq hbeq⟩)
  show select_model q (some pm) = select_model_auto q
  simp [select_model, hany]

/-- Witness for C4, at the query "hi" with the unknown id "not-a-real-model". -/
theorem select_model_unknown_preferred_witness :
    "not-a-real-model" ∉ MODEL_CONFIGS.map Prod.fst ∧
      select_model "hi" (some "not-a-real-model") = select_model "hi" none := by
  exact ⟨by decide, select_model_unknown_preferred "hi" "not-a-real-model" (by decide)⟩

/-- Claim C5: `analyze_query` assigns `length_score` by mutually exclusive
character-count tiers: above 1000 chars score 3 with the very-long factor;
501 to 1000 chars score 2 with the long factor; 201 to 500 chars score 1
with the medium factor; at most 200 chars score 0 with no length factor. -/
theorem length_scoring_tiers (q : String) :
    (1000 < q.length →
        (analyze_query q).length_score = 3 ∧
        "Very long query (>1000 chars)" ∈ (analyze_query q).factors) ∧
    (500 < q.length ∧ q.length ≤ 1000 →
        (analyze_query q).length_score = 2 ∧
        "Long query (>500 chars)" ∈ (analyze_query q).factors) ∧
    (200 < q.length ∧ q.length ≤ 500 →
        (analyze_query q).length_score = 1 ∧
        "Medium length query" ∈ (analyze_query q).factors) ∧
    (q.length ≤ 200 →
        (analyze_query q).length_score = 0 ∧
        "Medium length query" ∉ (analyze_query q).factors ∧
        "Long query (>500 chars)" ∉ (analyze_query q).factors ∧
        "Very long query (>1000 chars)" ∉ (analyze_query q).factors) := by
  refine ⟨fun h => ?_, fun h => ?_, fun h => ?_, fun h => ?_⟩
  · have hl := lengthAnalysis_very_long q.length h
    constructor
    · rw [analyze_query_length_score, hl]
    · rw [analyze_query_factors, hl]; simp
  · have hl := lengthAnalysis_long q.length h.1 h.2
    constructor
    · rw [analyze_query_length_score, hl]
    · rw [analyze_query_factors, hl]; simp
  · have hl := lengthAnalysis_medium q.length h.1 h.2
    constructor
    · rw [analyze_query_length_score, hl]
    · rw [analyze_query_factors, hl]; simp
  · have hl := lengthAnalysis_short q.length h
    refine ⟨by rw [analyze_query_length_score, hl], ?_, ?_, ?_⟩
    all_goals
      intro hmem
      rw [analyze_query_factors, hl] at hmem
      simp only [List.nil_append] at hmem
      exact length_factor_not_in_tail q _ (by decide) (by decide) (by decide)
        (by decide) (by decide) (by decide) hmem

/-- Witness for C5, at a 501-character query (tier 2). -/
theorem length_scoring_tiers_witness :
    (500 < (String.mk (List.replicate 501 'a')).length ∧
      (String.mk (List.replicate 501 'a')).length ≤ 1000) ∧
    (analyze_query (String.mk (List.replicate 501 'a'))).length_score = 2 := by
  have hlen : (String.mk (List.replicate 501 'a')).length = 501 := by
    show (List.replicate 501 'a').length = 501
    rw [List.length_replicate]
  have hb : 500 < (String.mk (List.replicate 501 'a')).length ∧
      (String.mk (List.replicate 501 'a')).length ≤ 1000 := by
    rw [hlen]
    exact ⟨by norm_num, by norm_num⟩
  exact ⟨hb, ((length_scoring_tiers (String.mk (List.replicate 501 'a'))).2.1 hb).1⟩

/-- Claim C6: if the trimmed, lowercased query exactly equals one of the
"low" keywords, the keyword score is forced to 0 and the factor
"Simple greeting/response" is appended. -/
theorem low_keyword_override (q : String)
    (h : trimCL (lowerCL q.data) ∈ COMPLEXITY_KEYWORDS.low.map String.data) :
    (analyze_query q).keyword_score = 0 ∧
      "Simple greeting/response" ∈ (analyze_query q).factors := by
  have hne : (COMPLEXITY_KEYWORDS.low.filter
      fun kw => trimCL (lowerCL q.data) == kw.data) ≠ [] := by
    intro h0
    rcases List.mem_map.mp h with ⟨kw, hkw, heq⟩
    have hmem : kw ∈ COMPLEXITY_KEYWORDS.low.filter
        fun kw => trimCL (lowerCL q.data) == kw.data :=
      List.mem_filter.mpr ⟨hkw, beq_iff_eq.mpr heq.symm⟩
    rw [h0] at hmem
    exact List.not_mem_nil _ hmem
  have hlow : (COMPLEXITY_KEYWORDS.low.filter
      fun kw => trimCL (lowerCL q.data) == kw.data).isEmpty = false := by
    cases hL : COMPLEXITY_KEYWORDS.low.filter
        fun kw => trimCL (lowerCL q.data) == kw.data with
    | nil => exact absurd hL hne
    | cons a as => rfl
  constructor
  · rw [analyze_query_keyword_score]
    simp [keywordAnalysis, hlow]
  · rw [analyze_query_factors]
    simp [keywordAnalysis, hlow]

/-- Witness for C6, at the query "  ok  " (trims to the low keyword "ok"). -/
theorem low_keyword_override_witness :
    trimCL (lowerCL "  ok  ".data) ∈ COMPLEXITY_KEYWORDS.low.map String.data ∧
      (analyze_query "  ok  ").keyword_score = 0 ∧
      "Simple greeting/response" ∈ (analyze_query "  ok  ").factors := by
  exact ⟨by decide, low_keyword_override "  ok  " (by decide)⟩

/-- Claim C7: the total score of an analysis always equals the sum of its
three component scores. -/
theorem total_score_eq_sum (q : String) :
    (analyze_query q).total_score =
      (analyze_query q).length_score + (analyze_query q).keyword_score +
        (analyze_query q).structure_score := rfl

/-- Claim C8: `analyze_query` is a pure function of the query string and the
static lexicon, so two invocations on the same input agree in every field. -/
theorem analyze_query_deterministic (q : String) :
    analyze_query q = analyze_query q := rfl

/-- Claim C9: the model id returned by `select_model` is always a key of the
static model registry, for every query and every preference. -/
theorem select_model_returns_registry_key (q : String) (pm : Option String) :
    (select_model q pm).1 ∈ MODEL_CONFIGS.map Prod.fst := by
  cases pm with
  | none => exact select_model_auto_fst_mem q
  | some s =>
      cases hg : (!(s == "") && MODEL_CONFIGS.any fun p => p.1 == s) with
      | true =>
          rw [select_model_valid q s hg]
          simp only [Bool.and_eq_true] at hg
          rcases List.any_eq_true.mp hg.2 with ⟨p, hp, hbeq⟩
          exact List.mem_map.mpr ⟨p, hp, eq_of_beq hbeq⟩
      | false =>
          rw [select_model_invalid q (some s) hg]
          exact select_model_auto_fst_mem q

/-- Claim C10: the model id returned by `select_model` always equals the
`recommended_model` recorded in the returned analysis. -/
theorem select_model_fst_eq_recommended (q : String) (pm : Option String) :
    (select_model q pm).2.recommended_model = some (select_model q pm).1 := by
  cases pm with
  | none => rfl
  | some s =>
      cases hg : (!(s == "") && MODEL_CONFIGS.any fun p => p.1 == s) with
      | true => rw [select_model_valid q s hg]
      | false =>
          rw [select_model_invalid q (some s) hg]
          rfl

end ModelZoo
